import Mathlib

/-!
Verification development for the auto-uv interception module
(`src/auto_uv.py`).  The Python module is shallowly embedded: the process
environment, the filesystem probes, the launcher availability probe and the
process-replacement call are explicit inputs (a `World`), and the three
source functions `_find_project_root`, `should_use_uv` and `auto_use_uv`
become pure Lean functions over that world.  POSIX path strings are handled
at character level so that every definition evaluates inside the kernel.
The embedding fixes the POSIX platform (`os.path.sep = "/"`,
`os.pathsep = ":"`, `sys.platform != "win32"`), which is the platform all
verified claims are about.
-/

/-- Abstract filesystem probes.  `isfile p` models `os.path.isfile(p)` and
`isdir p` models `os.path.isdir(p)`; both are total Boolean functions, as in
Python, where these calls return `False` (rather than raising) on
nonexistent or inaccessible paths. -/
structure FS where
  isfile : String → Bool
  isdir : String → Bool

/-- Split a character list at every occurrence of `sep`, keeping empty
chunks, as Python `str.split(sep)` does. -/
def splitChar (sep : Char) : List Char → List (List Char)
  | [] => [[]]
  | c :: rest =>
    match splitChar sep rest with
    | [] => [[c]]
    | h :: t => if c = sep then [] :: h :: t else (c :: h) :: t

/-- Normalize the component list of an absolute POSIX path the way
`os.path.normpath` does: empty and `.` components are dropped, `..` pops the
previous component (and is dropped at the root).  The accumulator holds the
kept components in reverse. -/
def normSegs (acc : List (List Char)) : List (List Char) → List (List Char)
  | [] => acc.reverse
  | c :: rest =>
    if c = [] ∨ c = ['.'] then normSegs acc rest
    else if c = ['.', '.'] then normSegs acc.tail rest
    else normSegs (c :: acc) rest

/-- Intercalate `/` between path components. -/
def interSl : List (List Char) → List Char
  | [] => []
  | [c] => c
  | c :: rest => c ++ '/' :: interSl rest

/-- Render a component list as an absolute POSIX path string. -/
def renderAbsC (cs : List (List Char)) : String := ⟨'/' :: interSl cs⟩

/-- `os.path.normpath` restricted to absolute POSIX paths. -/
def normP (p : String) : String :=
  renderAbsC (normSegs [] (splitChar '/' p.data))

/-- `os.path.abspath(p)` with current working directory `cwd`: an absolute
`p` is normalized directly, a relative one is joined to `cwd` first. -/
def pyAbspath (cwd p : String) : String :=
  if p.data.head? = some '/' then normP p else normP (cwd ++ "/" ++ p)

/-- `os.path.dirname` on normalized absolute POSIX paths (the only inputs
the source feeds it): drop the last component; the root is its own
dirname. -/
def dirname (p : String) : String :=
  renderAbsC ((normSegs [] (splitChar '/' p.data)).dropLast)

/-- `os.path.join(a, b)` for POSIX paths. -/
def pyJoin (a b : String) : String :=
  if b.data.head? = some '/' then b
  else if a = "" then b
  else if a.data.getLast? = some '/' then a ++ b
  else a ++ "/" ++ b

/-- `listPre n h` holds when `n` is a prefix of `h` (Boolean, structural). -/
def listPre : List Char → List Char → Bool
  | [], _ => true
  | _ :: _, [] => false
  | a :: n, b :: h => a = b && listPre n h

/-- `listSub n h` holds when `n` occurs contiguously inside `h`; this is the
Python substring test `n in h`. -/
def listSub (n : List Char) : List Char → Bool
  | [] => listPre n []
  | c :: h => listPre n (c :: h) || listSub n h

/-- Python `needle in hay` on strings. -/
def strIn (needle hay : String) : Bool := listSub needle.data hay.data

/-- Python `s.startswith(pre)`. -/
def strStarts (s pre : String) : Bool := listPre pre.data s.data

/-- Python `s.endswith(suf)`. -/
def strEnds (s suf : String) : Bool := listPre suf.data.reverse s.data.reverse

/-- Python `s.lower()` (ASCII case, which covers the values compared). -/
def strLower (s : String) : String := ⟨s.data.map Char.toLower⟩

/-- Truthiness of an `os.environ.get(k)` result: a missing key and the empty
string are falsy, every other string is truthy. -/
def envTruthy : Option String → Bool
  | none => false
  | some s => !(s == "")

/-- `os.environ.get(k, d)`. -/
def envGetD (env : String → Option String) (k d : String) : String :=
  (env k).getD d

/-- Python truthiness of an `Optional[str]` used in `if not project_root:`
and `if script_path:`. -/
def optFalsy : Option String → Bool
  | none => true
  | some s => s == ""

/-- A directory contains a uv project marker
(`auto_uv.py` lines 15-17): a `pyproject.toml` file, a `.venv` directory or
a `uv.lock` file. -/
def hasMarker (fs : FS) (d : String) : Bool :=
  fs.isfile (pyJoin d "pyproject.toml") ||
  fs.isdir (pyJoin d ".venv") ||
  fs.isfile (pyJoin d "uv.lock")

/-- The upward-walk loop of `_find_project_root`
(`auto_uv.py` lines 13-26): at each of at most `fuel` levels, return the
current directory if it has a marker, stop with `none` when the parent
equals the current directory (the filesystem root), otherwise move up. -/
def findRootLoop (fs : FS) : String → Nat → Option String
  | _, 0 => none
  | checkDir, n + 1 =>
    if hasMarker fs checkDir then some checkDir
    else if dirname checkDir = checkDir then none
    else findRootLoop fs (dirname checkDir) n

/-- `_find_project_root(start_dir, max_depth=10)`
(`auto_uv.py` lines 6-26). -/
def _find_project_root (fs : FS) (cwd start_dir : String)
    (max_depth : Nat := 10) : Option String :=
  findRootLoop fs (pyAbspath cwd start_dir) max_depth

/-- The world a single invocation runs in: the process environment, working
directory, filesystem, the outcome of the `uv --version` probe
(`uvAvailable = false` models exactly the three caught failures: absent
binary, non-zero exit, timeout), the invocation arguments, whether
`import __main__` succeeds, the `__main__.__file__` attribute
(`none` = attribute missing, `some none` = attribute is `None`),
`sys.prefix` and `sys.base_prefix`, the `os.access(-, X_OK)` probe, and
whether `os.execve` raises. -/
structure World where
  env : String → Option String
  cwd : String
  fs : FS
  uvAvailable : Bool
  argv : List String
  mainImportOk : Bool
  mainFileAttr : Option (Option String)
  sPfx : String
  bPfx : String
  accessX : String → Bool
  execRaises : Bool

/-- `should_use_uv(script_path=None)` (`auto_uv.py` lines 29-63). -/
def should_use_uv (w : World) (script_path : Option String := none) : Bool :=
  if envTruthy (w.env "UV_RUN_ACTIVE") then false
  else if (["1", "true", "yes"] : List String).contains
      (strLower (envGetD w.env "AUTO_UV_DISABLE" "")) then false
  else if !w.uvAvailable then false
  else
    let root1 : Option String :=
      match script_path with
      | some sp =>
        if sp ≠ "" then
          _find_project_root w.fs w.cwd (dirname (pyAbspath w.cwd sp)) 10
        else none
      | none => none
    let root : Option String :=
      if optFalsy root1 then _find_project_root w.fs w.cwd w.cwd 10
      else root1
    root.isSome

/-- What an invocation of `auto_use_uv` did.  Every constructor except
`replaced` models a plain `return` to the caller: no exception escapes and
the process keeps running.  `noLauncher` is the fallback when the PATH scan
finds no executable (line 167); `execFailed` is the branch where
`os.execve` raised, a warning was printed to stderr, and the function
returned (lines 168-171); `replaced` is the successful `os.execve`, after
which the original program is gone (line 164). -/
inductive ExecStatus where
  | notAttempted
  | replaced (path : String) (args : List String)
  | noLauncher
  | execFailed
deriving DecidableEq

/-- Result of `auto_use_uv`: the process environment on return (or passed
to the replacement image) and what happened. -/
structure Outcome where
  envAfter : String → Option String
  status : ExecStatus

/-- The environment after `os.environ["UV_RUN_ACTIVE"] = "1"`
(`auto_uv.py` line 137). -/
def envWithGuard (w : World) : String → Option String :=
  fun k => if k = "UV_RUN_ACTIVE" then some "1" else w.env k

/-- Normalize a `__main__.__file__` attribute value the way lines 98
does: a truthy value becomes its absolute path, a falsy one becomes
`None`. -/
def normFileOpt (cwd : String) : Option String → Option String
  | some f => if f ≠ "" then some (pyAbspath cwd f) else none
  | none => none

/-- The fixed system-wide binary directories (`auto_uv.py` lines 129-130). -/
def systemDirs : List String :=
  ["/usr/bin", "/usr/local/bin", "/opt/bin", "/bin", "/sbin",
   "/usr/sbin", "/usr/local/sbin"]

/-- The virtual-environment / scripts directory check
(`auto_uv.py` lines 116-121). -/
def binDirCheck (script : String) : Bool :=
  strIn "/bin/" script || strIn "/Scripts/" script ||
  strEnds script "/bin" || strEnds script "/Scripts" ||
  strStarts script "/bin/" || strStarts script "/Scripts/"

/-- The system-directory loop (`auto_uv.py` lines 131-133). -/
def sysDirCheck (script : String) : Bool :=
  systemDirs.any fun d => strStarts script (d ++ "/") || script == d

/-- Python `":".split` of the `PATH` value into directories
(`auto_uv.py` line 153, POSIX `os.pathsep`). -/
def splitColon (s : String) : List String :=
  (splitChar ':' s.data).map fun l => (⟨l⟩ : String)

/-- The PATH scan for the launcher executable (`auto_uv.py` lines 146-160):
first directory, first candidate name whose joined path is a file with
execute permission.  On POSIX the candidate names are just `["uv"]`. -/
def findExecutable (isfile accessX : String → Bool)
    (dirs names : List String) : Option String :=
  dirs.findSome? fun d => names.findSome? fun n =>
    if isfile (pyJoin d n) && accessX (pyJoin d n) then some (pyJoin d n)
    else none

/-- The launcher lookup performed after the re-entry guard was set: the
`PATH` value is read from the mutated environment. -/
def uvPathScan (w : World) : Option String :=
  findExecutable w.fs.isfile w.accessX
    (splitColon (envGetD (envWithGuard w) "PATH" "")) ["uv"]

/-- The replacement stage (`auto_uv.py` lines 136-171), entered once the
decision to intercept has been made: set the re-entry guard, build
`["uv", "run"] + sys.argv`, scan PATH, and either replace the process,
fall back when no launcher is found, or catch the exec failure, warn and
return. -/
def interceptStage (w : World) : Outcome :=
  match uvPathScan w with
  | some uvPath =>
    if w.execRaises then ⟨envWithGuard w, .execFailed⟩
    else ⟨envWithGuard w, .replaced uvPath (["uv", "run"] ++ w.argv)⟩
  | none => ⟨envWithGuard w, .noLauncher⟩

/-- `auto_use_uv()` (`auto_uv.py` lines 66-171).  The Python locals
`main_file`, `argv_file` and `script_path` are inlined: `script_path`
stands for `pyAbspath w.cwd argv0` throughout. -/
def auto_use_uv (w : World) : Outcome :=
  match w.argv.head? with
  | none => ⟨w.env, .notAttempted⟩
  | some argv0 =>
    if argv0 = "" then ⟨w.env, .notAttempted⟩
    else if w.mainImportOk then
      match w.mainFileAttr with
      | none => ⟨w.env, .notAttempted⟩
      | some attr =>
        if normFileOpt w.cwd attr ≠
            (if argv0 ≠ "" then some (pyAbspath w.cwd argv0) else none) then
          ⟨w.env, .notAttempted⟩
        else if w.fs.isfile argv0 then
          if strIn "site-packages" (pyAbspath w.cwd argv0) ||
             strIn "dist-packages" (pyAbspath w.cwd argv0) then
            ⟨w.env, .notAttempted⟩
          else if binDirCheck (pyAbspath w.cwd argv0) then
            ⟨w.env, .notAttempted⟩
          else if strIn w.sPfx (pyAbspath w.cwd argv0) ||
                  strIn w.bPfx (pyAbspath w.cwd argv0) then
            ⟨w.env, .notAttempted⟩
          else if sysDirCheck (pyAbspath w.cwd argv0) then
            ⟨w.env, .notAttempted⟩
          else if should_use_uv w (some (pyAbspath w.cwd argv0)) then
            interceptStage w
          else ⟨w.env, .notAttempted⟩
        else ⟨w.env, .notAttempted⟩
    else ⟨w.env, .notAttempted⟩

/-- All conditions on the road to the replacement stage: the guard chain
passes and the decision predicate answers yes.  `auto_use_uv` runs
`interceptStage` exactly when this holds. -/
def decisionMade (w : World) : Prop :=
  ∃ argv0, w.argv.head? = some argv0 ∧ argv0 ≠ "" ∧
    w.mainImportOk = true ∧
    ∃ attr, w.mainFileAttr = some attr ∧
      normFileOpt w.cwd attr = some (pyAbspath w.cwd argv0) ∧
      w.fs.isfile argv0 = true ∧
      (strIn "site-packages" (pyAbspath w.cwd argv0) ||
       strIn "dist-packages" (pyAbspath w.cwd argv0)) = false ∧
      binDirCheck (pyAbspath w.cwd argv0) = false ∧
      (strIn w.sPfx (pyAbspath w.cwd argv0) ||
       strIn w.bPfx (pyAbspath w.cwd argv0)) = false ∧
      sysDirCheck (pyAbspath w.cwd argv0) = false ∧
      should_use_uv w (some (pyAbspath w.cwd argv0)) = true

/-- Spec-side characterization of the upward walk, following the spec's
words: the chain of ancestor directories visited, starting from the
directory itself, at most `n` long, stopping at the filesystem root. -/
def specAncestors (d : String) : Nat → List String
  | 0 => []
  | n + 1 => d :: (if dirname d = d then [] else specAncestors (dirname d) n)

/-- Spec-side scan: the first (nearest) visited ancestor that contains a
marker. -/
def specFirstMarked (fs : FS) (d : String) (n : Nat) : Option String :=
  (specAncestors d n).find? (hasMarker fs)

/-- `p` and its entire `/`-separated component `seg`: the segment occurs
between two separators or string ends. -/
def hasSegment (seg p : String) : Prop :=
  seg.data ∈ splitChar '/' p.data

/-- `p` equals `root` or lies strictly under it. -/
def underOf (p root : String) : Prop :=
  p = root ∨ strStarts p (root ++ "/") = true

/-- The normalized `__main__` entry-point file the comparison at line 100
uses: `none` when the attribute is missing or falsy, otherwise the absolute
path of its value. -/
def mainFileNorm (w : World) : Option String :=
  match w.mainFileAttr with
  | none => none
  | some attr => normFileOpt w.cwd attr

/-- Example filesystem for the concrete scan scenario of the spec: a tree
`root/pyproject.toml` with markerless subdirectories `root/a/b`. -/
def exFS : FS :=
  { isfile := fun p => p == "/root/pyproject.toml", isdir := fun _ => false }

/-- Filesystem with a single marker far away from the scanned chain. -/
def fsA : FS :=
  { isfile := fun p => p == "/zzz/pyproject.toml", isdir := fun _ => false }

/-- Completely empty filesystem. -/
def fsB : FS := { isfile := fun _ => false, isdir := fun _ => false }

/-- A concrete world in which every guard passes: the script
`/p/s.py` is the entry point, sits in a project (`/p/pyproject.toml`
exists), the launcher probe succeeds, but `PATH` is unset. -/
def baseW : World where
  env := fun _ => none
  cwd := "/p"
  fs :=
    { isfile := fun p => p == "/p/s.py" || p == "/p/pyproject.toml"
      isdir := fun _ => false }
  uvAvailable := true
  argv := ["/p/s.py"]
  mainImportOk := true
  mainFileAttr := some (some "/p/s.py")
  sPfx := "/usr/local/venvx"
  bPfx := "/usr/local/pythonx"
  accessX := fun _ => true
  execRaises := false

/-- `baseW` with the re-entry guard already set. -/
def wGuardSet : World :=
  { baseW with env := fun k => if k = "UV_RUN_ACTIVE" then some "1" else none }

/-- `baseW` with a different entry point than `sys.argv[0]` (the module is
being imported, not run). -/
def wImported : World :=
  { baseW with mainFileAttr := some (some "/other/x.py") }

/-- `baseW` with a failed launcher probe. -/
def wProbeFail : World := { baseW with uvAvailable := false }

/-- A world whose target script lives in a `site-packages` directory while
a project marker is present in an ancestor. -/
def wSitePkg : World :=
  { baseW with
    argv := ["/p/site-packages/tool.py"]
    mainFileAttr := some (some "/p/site-packages/tool.py")
    fs :=
      { isfile := fun p =>
          p == "/p/site-packages/tool.py" || p == "/p/pyproject.toml"
        isdir := fun _ => false } }

/-- A world whose target script lives under `/usr/bin`. -/
def wUsrBin : World :=
  { baseW with
    argv := ["/usr/bin/tool.py"]
    mainFileAttr := some (some "/usr/bin/tool.py")
    fs :=
      { isfile := fun p => p == "/usr/bin/tool.py" || p == "/p/pyproject.toml"
        isdir := fun _ => false } }

/-- A world with no invocation arguments at all. -/
def wNoArgv : World := { baseW with argv := [] }

/-! ## Basic facts about the string primitives -/

theorem listPre_of_pre {l₁ l₂ : List Char} (h : l₁ <+: l₂) :
    listPre l₁ l₂ = true := by
  induction l₁ generalizing l₂ with
  | nil => rfl
  | cons a n ih =>
    obtain ⟨t, ht⟩ := h
    subst ht
    simp only [List.cons_append, listPre, Bool.and_eq_true, decide_eq_true_eq]
    exact ⟨trivial, ih ⟨t, rfl⟩⟩

theorem pre_of_listPre {l₁ l₂ : List Char} (h : listPre l₁ l₂ = true) :
    l₁ <+: l₂ := by
  induction l₁ generalizing l₂ with
  | nil => exact List.nil_prefix
  | cons a n ih =>
    cases l₂ with
    | nil => simp [listPre] at h
    | cons b t =>
      simp only [listPre, Bool.and_eq_true, decide_eq_true_eq] at h
      obtain ⟨rfl, h2⟩ := h
      exact List.cons_prefix_cons.mpr ⟨rfl, ih h2⟩

theorem listSub_of_listPre {n h : List Char} (hp : listPre n h = true) :
    listSub n h = true := by
  cases h with
  | nil => exact hp
  | cons c h2 => simp [listSub, hp]

theorem listSub_of_inf {n h : List Char} (hi : n <:+: h) :
    listSub n h = true := by
  obtain ⟨s, t, rfl⟩ := hi
  induction s with
  | nil =>
    simp only [List.nil_append]
    exact listSub_of_listPre (listPre_of_pre ⟨t, rfl⟩)
  | cons a s2 ih =>
    simp only [List.cons_append, listSub, Bool.or_eq_true]
    right
    simpa using ih

theorem splitChar_structure (sep : Char) (l : List Char) :
    ∃ hd tl, splitChar sep l = hd :: tl ∧ hd <+: l ∧
      ∀ cs ∈ tl, cs <:+: l := by
  induction l with
  | nil => exact ⟨[], [], rfl, List.nil_prefix, by simp⟩
  | cons c rest ih =>
    obtain ⟨hd, tl, hs, hpre, hmem⟩ := ih
    by_cases hc : c = sep
    · refine ⟨[], hd :: tl, ?_, List.nil_prefix, ?_⟩
      · simp [splitChar, hs, hc]
      · intro cs hcs
        rcases List.mem_cons.mp hcs with rfl | h2
        · exact List.infix_cons hpre.isInfix
        · exact List.infix_cons (hmem cs h2)
    · refine ⟨c :: hd, tl, ?_, ?_, ?_⟩
      · simp [splitChar, hs, hc]
      · obtain ⟨r, hr⟩ := hpre
        exact ⟨r, by simp [hr]⟩
      · intro cs hcs
        exact List.infix_cons (hmem cs hcs)

theorem inf_of_mem_splitChar {sep : Char} {cs l : List Char}
    (h : cs ∈ splitChar sep l) : cs <:+: l := by
  obtain ⟨hd, tl, hs, hpre, hmem⟩ := splitChar_structure sep l
  rw [hs] at h
  rcases List.mem_cons.mp h with rfl | h2
  · exact hpre.isInfix
  · exact hmem cs h2

theorem strIn_of_hasSegment {seg p : String} (h : hasSegment seg p) :
    strIn seg p = true :=
  listSub_of_inf (inf_of_mem_splitChar h)

theorem strIn_of_underOf {p root : String} (h : underOf p root) :
    strIn root p = true := by
  rcases h with rfl | hs
  · exact listSub_of_inf (List.infix_refl _)
  · have hp : (root ++ "/").data <+: p.data := pre_of_listPre hs
    have hr : root.data <+: (root ++ "/").data := by
      rw [String.data_append]
      exact List.prefix_append _ _
    exact listSub_of_inf (hr.trans hp).isInfix

/-! ## Shape facts about the scan -/

theorem renderAbsC_ne_empty (cs : List (List Char)) : renderAbsC cs ≠ "" := by
  intro h
  have h2 : ('/' :: interSl cs : List Char) = [] := congrArg String.data h
  cases h2

theorem pyAbspath_shape (cwd p : String) :
    ∃ cs, pyAbspath cwd p = renderAbsC cs := by
  unfold pyAbspath normP
  split
  · exact ⟨_, rfl⟩
  · exact ⟨_, rfl⟩

theorem findRootLoop_shape (fs : FS) :
    ∀ (n : Nat) (d : String), (∃ cs, d = renderAbsC cs) →
      ∀ r, findRootLoop fs d n = some r → ∃ cs, r = renderAbsC cs := by
  intro n
  induction n with
  | zero => intro d _ r hr; simp [findRootLoop] at hr
  | succ n ih =>
    intro d hd r hr
    rw [findRootLoop] at hr
    split at hr
    · exact (Option.some.inj hr) ▸ hd
    · split at hr
      · cases hr
      · exact ih (dirname d) ⟨_, rfl⟩ r hr

theorem find_root_ne_empty {fs : FS} {cwd s : String} {n : Nat} {r : String}
    (h : _find_project_root fs cwd s n = some r) : r ≠ "" := by
  obtain ⟨cs, hcs⟩ := pyAbspath_shape cwd s
  obtain ⟨cs2, rfl⟩ :=
    findRootLoop_shape fs n (pyAbspath cwd s) ⟨cs, hcs⟩ r h
  exact renderAbsC_ne_empty cs2

theorem find?_congr_pred {α : Type} {p q : α → Bool} :
    ∀ l : List α, (∀ a ∈ l, p a = q a) → l.find? p = l.find? q := by
  intro l
  induction l with
  | nil => intro _; rfl
  | cons a t ih =>
    intro h
    have ha := h a (List.mem_cons_self a t)
    by_cases hp : p a = true
    · rw [List.find?_cons_of_pos _ hp, List.find?_cons_of_pos _ (ha.symm.trans hp)]
    · rw [List.find?_cons_of_neg _ hp,
        List.find?_cons_of_neg _ (fun hq => hp (ha.trans hq))]
      exact ih fun a2 ha2 => h a2 (List.mem_cons_of_mem _ ha2)

theorem findRootLoop_eq_spec (fs : FS) :
    ∀ (n : Nat) (d : String),
      findRootLoop fs d n = (specAncestors d n).find? (hasMarker fs) := by
  intro n
  induction n with
  | zero => intro d; rfl
  | succ n ih =>
    intro d
    rw [findRootLoop, specAncestors]
    by_cases hm : hasMarker fs d = true
    · rw [List.find?_cons_of_pos _ hm, if_pos hm]
    · rw [if_neg hm, List.find?_cons_of_neg _ hm]
      by_cases hd : dirname d = d
      · rw [if_pos hd, if_pos hd]
        rfl
      · rw [if_neg hd, if_neg hd]
        exact ih (dirname d)

theorem specAncestors_length_le :
    ∀ (n : Nat) (d : String), (specAncestors d n).length ≤ n := by
  intro n
  induction n with
  | zero => intro d; simp [specAncestors]
  | succ n ih =>
    intro d
    rw [specAncestors]
    by_cases hd : dirname d = d
    · simp [hd]
    · simp only [if_neg hd, List.length_cons]
      exact Nat.succ_le_succ (ih (dirname d))

/-! ## The guard chain and the replacement stage -/

theorem auto_of_dm {w : World} (h : decisionMade w) :
    auto_use_uv w = interceptStage w := by
  obtain ⟨a0, ha0, hne, himp, attr, hattr, hnorm, hisf, hsite, hbin, hpfx,
    hsys, hdec⟩ := h
  unfold auto_use_uv
  simp only [ha0, himp, hattr, hnorm, hisf, hsite, hbin, hpfx, hsys, hdec,
    if_neg hne, ne_eq, hne, not_false_eq_true, if_true, ite_not, if_false,
    Bool.false_eq_true, not_true_eq_false]

theorem auto_of_not_dm {w : World} (h : ¬ decisionMade w) :
    auto_use_uv w = ⟨w.env, .notAttempted⟩ := by
  rcases h0 : w.argv.head? with _ | argv0
  · unfold auto_use_uv
    rw [h0]
  · unfold auto_use_uv
    rw [h0]
    by_cases h1 : argv0 = ""
    · simp [h1]
    by_cases h2 : w.mainImportOk = true
    case neg => simp [h1, h2]
    rcases h3 : w.mainFileAttr with _ | attr
    · simp [h1, h2, h3]
    by_cases h4 : normFileOpt w.cwd attr = some (pyAbspath w.cwd argv0)
    case neg => simp [h1, h2, h3, h4]
    by_cases h5 : w.fs.isfile argv0 = true
    case neg => simp [h1, h2, h3, h4, h5]
    by_cases h6 : (strIn "site-packages" (pyAbspath w.cwd argv0) ||
        strIn "dist-packages" (pyAbspath w.cwd argv0)) = true
    · simp [h1, h2, h3, h4, h5, h6]
    by_cases h7 : binDirCheck (pyAbspath w.cwd argv0) = true
    · simp [h1, h2, h3, h4, h5, h6, h7]
    by_cases h8 : (strIn w.sPfx (pyAbspath w.cwd argv0) ||
        strIn w.bPfx (pyAbspath w.cwd argv0)) = true
    · simp [h1, h2, h3, h4, h5, h6, h7, h8]
    by_cases h9 : sysDirCheck (pyAbspath w.cwd argv0) = true
    · simp [h1, h2, h3, h4, h5, h6, h7, h8, h9]
    by_cases h10 : should_use_uv w (some (pyAbspath w.cwd argv0)) = true
    · exact absurd ⟨argv0, h0, h1, h2, attr, h3, h4, h5,
        (Bool.not_eq_true _) ▸ h6, (Bool.not_eq_true _) ▸ h7,
        (Bool.not_eq_true _) ▸ h8, (Bool.not_eq_true _) ▸ h9, h10⟩ h
    · simp [h1, h2, h3, h4, h5, h6, h7, h8, h9, h10]

/-! ## The claims -/

/-- C2: whenever the re-entry guard variable `UV_RUN_ACTIVE` holds a truthy
(non-empty) value, `should_use_uv` returns `false`, regardless of the
disable variable, launcher availability, the script-path argument and the
filesystem contents (all of which are arbitrary in `w` and `sp`). -/
theorem reentry_guard_forces_false (w : World) (sp : Option String)
    (h : envTruthy (w.env "UV_RUN_ACTIVE") = true) :
    should_use_uv w sp = false := by
  unfold should_use_uv
  rw [h]
  simp

theorem reentry_guard_forces_false_witness :
    should_use_uv wGuardSet (some "/p/s.py") = false :=
  reentry_guard_forces_false wGuardSet (some "/p/s.py") (by decide)

/-- C5: when the launcher availability probe fails (absent binary, non-zero
exit or timeout — the three caught exceptions, modelled by
`uvAvailable = false`), `should_use_uv` returns `false` (it is a total
function, so no exception propagates) and `auto_use_uv` attempts no process
replacement and leaves the environment unchanged. -/
theorem probe_failure_safe (w : World) (h : w.uvAvailable = false) :
    (∀ sp : Option String, should_use_uv w sp = false) ∧
    auto_use_uv w = ⟨w.env, .notAttempted⟩ := by
  have hs : ∀ sp : Option String, should_use_uv w sp = false := by
    intro sp
    unfold should_use_uv
    rw [h]
    simp
  refine ⟨hs, auto_of_not_dm ?_⟩
  rintro ⟨a0, -, -, -, attr, -, -, -, -, -, -, -, hdec⟩
  rw [hs _] at hdec
  exact Bool.false_ne_true hdec

theorem probe_failure_safe_witness :
    should_use_uv wProbeFail (some "/p/s.py") = false ∧
    auto_use_uv wProbeFail = ⟨wProbeFail.env, .notAttempted⟩ :=
  ⟨(probe_failure_safe wProbeFail rfl).1 (some "/p/s.py"),
   (probe_failure_safe wProbeFail rfl).2⟩

/-- C6: when the re-entry guard and the disable variable do not fire and
the launcher probe succeeds, `should_use_uv` scans from the containing
directory of the provided script path, falls back to a scan from the
current working directory (also when no script path is provided), and
returns `true` exactly when one of these scans finds a project root. -/
theorem decision_scan_policy (w : World)
    (h1 : envTruthy (w.env "UV_RUN_ACTIVE") = false)
    (h2 : (["1", "true", "yes"] : List String).contains
        (strLower (envGetD w.env "AUTO_UV_DISABLE" "")) = false)
    (h3 : w.uvAvailable = true) :
    (∀ sp : String, sp ≠ "" →
      (should_use_uv w (some sp) = true ↔
        (_find_project_root w.fs w.cwd (dirname (pyAbspath w.cwd sp)) 10 ≠
          none ∨
         _find_project_root w.fs w.cwd w.cwd 10 ≠ none))) ∧
    should_use_uv w none = (_find_project_root w.fs w.cwd w.cwd 10).isSome := by
  have hd : ¬ strLower (envGetD w.env "AUTO_UV_DISABLE" "") = "1" ∧
      ¬ strLower (envGetD w.env "AUTO_UV_DISABLE" "") = "true" ∧
      ¬ strLower (envGetD w.env "AUTO_UV_DISABLE" "") = "yes" := by
    simpa using h2
  constructor
  · intro sp hsp
    rcases hr : _find_project_root w.fs w.cwd (dirname (pyAbspath w.cwd sp)) 10
      with _ | r
    · simp [should_use_uv, h1, h3, hsp, hr, optFalsy,
        Option.isSome_iff_ne_none, hd.1, hd.2.1, hd.2.2]
    · have hne2 : r ≠ "" := find_root_ne_empty hr
      simp [should_use_uv, h1, h3, hsp, hr, optFalsy, hne2,
        hd.1, hd.2.1, hd.2.2]
  · simp [should_use_uv, h1, h3, optFalsy, hd.1, hd.2.1, hd.2.2]

theorem decision_scan_policy_witness :
    should_use_uv baseW (some "/p/s.py") = true :=
  ((decision_scan_policy baseW (by decide) (by decide) rfl).1 "/p/s.py"
    (by decide)).mpr (Or.inl (by decide))

/-- C4: for every filesystem, working directory, starting directory and
depth bound, `_find_project_root` returns the first (nearest) ancestor
directory — starting from the start directory itself, walking upward at
most `max_depth` levels, stopping at the filesystem root — that contains
one of the three markers, and `none` when no visited ancestor has one; in
particular, with a tree `root/pyproject.toml` and markerless `root/a/b`,
scanning from `/root/a/b` (depth bound 10, the source default) returns
`/root`. -/
theorem find_project_root_nearest_ancestor :
    (∀ (fs : FS) (cwd start_dir : String) (n : Nat),
      _find_project_root fs cwd start_dir n =
        specFirstMarked fs (pyAbspath cwd start_dir) n) ∧
    _find_project_root exFS "/" "/root/a/b" 10 = some "/root" := by
  refine ⟨fun fs cwd s n => findRootLoop_eq_spec fs n (pyAbspath cwd s), ?_⟩
  decide

/-- C9: the project-marker scan is a total function whose result is
determined by the marker probes on the bounded ancestor chain alone (so any
filesystem state beyond that chain — including one induced by link cycles —
cannot affect it or make it diverge), and the visited chain never exceeds
the depth bound.  Filesystem access errors cannot raise here because the
probes are total Boolean functions, matching `os.path.isfile`/`isdir`,
which return `False` on inaccessible paths. -/
theorem scan_bounded_and_total :
    (∀ (fs1 fs2 : FS) (d : String) (n : Nat),
      (∀ a ∈ specAncestors d n, hasMarker fs1 a = hasMarker fs2 a) →
      findRootLoop fs1 d n = findRootLoop fs2 d n) ∧
    ∀ (d : String) (n : Nat), (specAncestors d n).length ≤ n := by
  constructor
  · intro fs1 fs2 d n hag
    rw [findRootLoop_eq_spec fs1 n d, findRootLoop_eq_spec fs2 n d]
    exact find?_congr_pred _ hag
  · intro d n
    exact specAncestors_length_le n d

theorem scan_bounded_and_total_witness :
    findRootLoop fsA "/q/a" 3 = findRootLoop fsB "/q/a" 3 :=
  scan_bounded_and_total.1 fsA fsB "/q/a" 3 (by decide)

/-- C3: whenever the normalized entry-point file of the top-level context
differs from the normalized first invocation argument — including when no
entry-point file is known at all, as when the module is merely imported —
`auto_use_uv` returns without intercepting: the environment is unchanged
and no process replacement occurs. -/
theorem import_context_no_intercept (w : World)
    (h : ∀ argv0, w.argv.head? = some argv0 →
      mainFileNorm w ≠ some (pyAbspath w.cwd argv0)) :
    auto_use_uv w = ⟨w.env, .notAttempted⟩ := by
  apply auto_of_not_dm
  rintro ⟨a0, ha0, -, -, attr, hattr, hnorm, -⟩
  refine h a0 ha0 ?_
  simp only [mainFileNorm, hattr]
  exact hnorm

theorem import_context_no_intercept_witness :
    auto_use_uv wImported = ⟨wImported.env, .notAttempted⟩ :=
  import_context_no_intercept wImported (by
    intro argv0 h0
    have h2 : some "/p/s.py" = some argv0 := h0
    cases h2
    decide)

/-- C7: for every target script whose absolute path contains a
`site-packages` or `dist-packages` segment, the guard chain rejects
interception unconditionally — `auto_use_uv` returns with the environment
unchanged and no re-entry guard set — even when a project marker is
present in an ancestor directory (the witness world has one). -/
theorem installed_package_segment_rejected (w : World) (argv0 : String)
    (h0 : w.argv.head? = some argv0)
    (h : hasSegment "site-packages" (pyAbspath w.cwd argv0) ∨
         hasSegment "dist-packages" (pyAbspath w.cwd argv0)) :
    auto_use_uv w = ⟨w.env, .notAttempted⟩ := by
  apply auto_of_not_dm
  rintro ⟨a0, ha0, -, -, attr, -, -, -, hsite, -⟩
  rw [h0] at ha0
  cases ha0
  rcases h with hseg | hseg <;>
    simp [strIn_of_hasSegment hseg] at hsite

theorem installed_package_segment_rejected_witness :
    auto_use_uv wSitePkg = ⟨wSitePkg.env, .notAttempted⟩ :=
  installed_package_segment_rejected wSitePkg "/p/site-packages/tool.py" rfl
    (Or.inl (by unfold hasSegment; decide))

/-- C8: for every target script whose absolute path is equal to or lies
under the interpreter prefix, the base prefix, or one of the fixed
system-wide binary directories, the guard chain rejects interception and
`auto_use_uv` returns with the environment unchanged. -/
theorem system_prefix_rejected (w : World) (argv0 : String)
    (h0 : w.argv.head? = some argv0)
    (h : underOf (pyAbspath w.cwd argv0) w.sPfx ∨
         underOf (pyAbspath w.cwd argv0) w.bPfx ∨
         ∃ d ∈ systemDirs, underOf (pyAbspath w.cwd argv0) d) :
    auto_use_uv w = ⟨w.env, .notAttempted⟩ := by
  apply auto_of_not_dm
  rintro ⟨a0, ha0, -, -, attr, -, -, -, -, -, hpfx, hsys, -⟩
  rw [h0] at ha0
  cases ha0
  rcases h with hu | hu | ⟨d, hd, hu⟩
  · simp [strIn_of_underOf hu] at hpfx
  · simp [strIn_of_underOf hu] at hpfx
  · have hchk : sysDirCheck (pyAbspath w.cwd argv0) = true := by
      unfold sysDirCheck
      rw [List.any_eq_true]
      refine ⟨d, hd, ?_⟩
      rcases hu with rfl | hs
      · simp
      · simp [hs]
    simp [hchk] at hsys

theorem system_prefix_rejected_witness :
    auto_use_uv wUsrBin = ⟨wUsrBin.env, .notAttempted⟩ :=
  system_prefix_rejected wUsrBin "/usr/bin/tool.py" rfl
    (Or.inr (Or.inr ⟨"/usr/bin", by decide, Or.inr (by decide)⟩))

/-- C10: on every invocation in which some guard-chain check rejects or the
decision predicate returns `false` (that is, `decisionMade` fails),
`auto_use_uv` returns with the process environment unchanged — in
particular `UV_RUN_ACTIVE` is never written on a rejecting path, since the
assignment happens only inside the replacement stage. -/
theorem rejecting_path_env_unchanged (w : World) (h : ¬ decisionMade w) :
    auto_use_uv w = ⟨w.env, .notAttempted⟩ :=
  auto_of_not_dm h

theorem rejecting_path_env_unchanged_witness :
    auto_use_uv wNoArgv = ⟨wNoArgv.env, .notAttempted⟩ :=
  rejecting_path_env_unchanged wNoArgv (by
    rintro ⟨a0, ha0, -⟩
    have h2 : (none : Option String) = some a0 := ha0
    cases h2)

/-- C1: once the decision to intercept has been made, if the PATH scan
finds no launcher executable, `auto_use_uv` returns normally with the
`noLauncher` outcome, and if the replacement call raises, it returns
normally with the `execFailed` outcome (which models: a warning is written
to the diagnostic stream first, then the function returns).  No constructor
of `ExecStatus` models an escaping exception or a process exit: on these
branches the original script continues as if the tool were absent. -/
theorem exec_failure_fail_open (w : World) (h : decisionMade w) :
    (uvPathScan w = none → auto_use_uv w = ⟨envWithGuard w, .noLauncher⟩) ∧
    (∀ p, uvPathScan w = some p → w.execRaises = true →
      auto_use_uv w = ⟨envWithGuard w, .execFailed⟩) := by
  have he := auto_of_dm h
  constructor
  · intro hn
    rw [he]
    unfold interceptStage
    rw [hn]
  · intro p hp hr
    rw [he]
    unfold interceptStage
    rw [hp]
    simp [hr]

theorem exec_failure_fail_open_witness :
    auto_use_uv baseW = ⟨envWithGuard baseW, .noLauncher⟩ :=
  (exec_failure_fail_open baseW
    ⟨"/p/s.py", rfl, by decide, rfl, some "/p/s.py", rfl, by decide,
      by decide, by decide, by decide, by decide, by decide, by decide⟩).1
    (by decide)
